import Mathlib

/-!
# Verification of the `genprompt` component-props analyzer

This file gives a shallow embedding of the core of the repository's
`analyzeProps` module: the declaration classifier (`isForwardRef`,
`isReactComponent`), the props-type extractors (`extractPropsType`,
`extractForwardRefPropsType`), the recursive type resolver
(`resolveTypeRecursively`) and the per-file aggregator
(`analyzeComponentProps`).

The ts-morph type-system facade is an external collaborator; it is
modelled by an environment `Env` that answers the exact queries the
code issues: `Type#getText()` (which may throw — it is the one facade
call in `resolveTypeRecursively` that sits *outside* the `try` block),
`Type#isArray()` / `Type#isObject()` / `Type#getProperties()` (answered
through the `TyDef` view of a type node), `Type#getArrayElementType()`
and `Symbol#getType()` for a property (both may throw, modelled as
`Except String` values inside `TyDef`).  Type nodes are identified by
`Nat` handles so that self-referential and mutually referential type
graphs are representable.

JavaScript runtime values returned by the resolver (strings, arrays,
plain objects) are modelled by `JSVal`; template-literal stringification
(`` `Array of: ${x}` ``) is modelled by `jsToString`, which implements
the JS `toString` conventions: a string is itself, an array joins its
stringified elements with ",", and a plain object renders as
"[object Object]".
-/

/-- A JavaScript value as produced by `resolveTypeRecursively`:
a string, an array of values, or a plain object (insertion-ordered
field list). -/
inductive JSVal where
  | str (s : String)
  | arr (elems : List JSVal)
  | obj (fields : List (String × JSVal))
deriving Repr

mutual

/-- JS template-literal stringification of a value (`String(v)`):
strings are themselves, arrays join their elements with ",", and plain
objects render as "[object Object]". -/
def jsToString : JSVal → String
  | .str s => s
  | .arr xs => jsToStringList xs
  | .obj _ => "[object Object]"

/-- JS `Array.prototype.toString`: elements stringified and joined with ",". -/
def jsToStringList : List JSVal → String
  | [] => ""
  | [v] => jsToString v
  | v :: vs => jsToString v ++ "," ++ jsToStringList vs

end

/-- The structural view of a type node, answering the facade queries
made inside the resolver's `try` block: `isArray()` (with
`getArrayElementType()`, which may throw), `isObject()` (with
`getProperties()`, each property's `getType()` possibly throwing), or
neither (a primitive / union / unresolvable type that only has a
textual rendering). -/
inductive TyDef where
  | array (elem : Except String Nat)
  | object (props : List (String × Except String Nat))
  | prim
deriving Repr

/-- The type-system facade: for every type node, its textual rendering
(`Type#getText()`, which may throw) and its structural view. -/
structure Env where
  text : Nat → Except String String
  defn : Nat → TyDef

/-- Facade query `Type#isObject()`: true for object types; in the TypeScript checker
array types are object types as well. -/
def Env.isObjectType (env : Env) (t : Nat) : Bool :=
  match env.defn t with
  | .object _ => true
  | .array _ => true
  | .prim => false

/-- The error string built by the resolver's `catch` block:
`` `Error resolving type "${typeName}": ${error.message}` ``. -/
def errMsg (typeName msg : String) : String :=
  "Error resolving type \"" ++ typeName ++ "\": " ++ msg

/-- The `properties.forEach` loop of `resolveTypeRecursively`'s object
branch, parameterized by the resolver used for each property's type
(the recursive call at `currentDepth + 1`).  A property's
`prop.getType()` throwing, or the recursive resolution itself
propagating an exception, aborts the loop and propagates the exception
(to be caught by the enclosing call's `catch`); the `visited` set
mutations made so far persist, as they do for the in-place JS `Set`. -/
def resolveProperties
    (resolveChild : Nat → List String → Except String JSVal × List String) :
    List (String × Except String Nat) → List String →
    Except String (List (String × JSVal)) × List String
  | [], visited => (.ok [], visited)
  | (name, ptq) :: rest, visited =>
    match ptq with
    | .error e => (.error e, visited)
    | .ok pt =>
      match resolveChild pt visited with
      | (.error e, v) => (.error e, v)
      | (.ok val, v) =>
        match resolveProperties resolveChild rest v with
        | (.error e, v2) => (.error e, v2)
        | (.ok fields, v2) => (.ok ((name, val) :: fields), v2)

/-- The body of `resolveTypeRecursively`, indexed by the remaining
depth budget `fuel = maxDepth + 1 - currentDepth` (the pair
`(maxDepth, currentDepth)` only ever enters the source function through
this difference: the entry guard is `currentDepth > maxDepth`, i.e.
`fuel = 0`, and every recursive call keeps `maxDepth` and increments
`currentDepth`, i.e. passes `fuel - 1`).

The first component is `.error e` exactly when the call throws: the
only throwing site outside the `try` block is `type.getText()`.  All
facade failures inside the `try` (element-type query, property-type
query, or an exception propagated out of a recursive call) are caught
by the `catch` and turned into the `errMsg` string for this node.  The
second component is the final state of the shared, mutated-in-place
`visited` set (modelled as a list used only for membership). -/
def resolveFuel (env : Env) : Nat → Nat → List String → Except String JSVal × List String
  | 0, _, visited => (.ok (.str "Reached max depth"), visited)
  | fuel + 1, t, visited =>
    match env.text t with
    | .error e => (.error e, visited)
    | .ok typeName =>
      if typeName ∈ visited then (.ok (.str "Circular reference"), visited)
      else
        let visited1 := typeName :: visited
        match env.defn t with
        | .array elemq =>
          match elemq with
          | .error e => (.ok (.str (errMsg typeName e)), visited1)
          | .ok elem =>
            match resolveFuel env fuel elem visited1 with
            | (.error e, v) => (.ok (.str (errMsg typeName e)), v)
            | (.ok val, v) =>
              (.ok (.arr [.str ("Array of: " ++ jsToString val)]), v)
        | .object props =>
          match resolveProperties (resolveFuel env fuel) props visited1 with
          | (.error e, v) => (.ok (.str (errMsg typeName e)), v)
          | (.ok fields, v) => (.ok (.obj fields), v)
        | .prim => (.ok (.str typeName), visited1)

/-- Source function `resolveTypeRecursively(type, maxDepth, currentDepth = 0, visited = new Set())`:
wrapper giving the source's signature; see `resolveFuel` for the body. -/
def resolveTypeRecursively (env : Env) (t : Nat) (maxDepth : Nat)
    (currentDepth : Nat := 0) (visited : List String := []) :
    Except String JSVal × List String :=
  resolveFuel env (maxDepth + 1 - currentDepth) t visited

/-- JavaScript `String.prototype.endsWith` (as used in
`expression.getText().endsWith("forwardRef")`): the characters of
`post` form a suffix of the characters of `s`. -/
def jsEndsWith (s post : String) : Bool :=
  post.data.isSuffixOf s.data

/-- The initializer expression of a variable declaration, with the
attributes the code queries: a call expression carries its callee's
textual rendering (`getExpression().getText()`), the module specifier
of the import that introduced the callee — the result of
`resolveImportSource` walking `getSymbol()` → `getDeclarations()` →
enclosing `ImportDeclaration` → `getModuleSpecifierValue()`, `none`
when that chain fails — and its type-argument list
(`getTypeArguments()`, as type-node handles); an arrow function
carries its parameter list (each parameter's resolved type handle,
`params[i].getType()`). -/
inductive Initializer where
  | callExpr (calleeText : String) (calleeImport : Option String) (typeArgs : List Nat)
  | arrowFun (params : List Nat)
  | otherExpr
deriving Repr

/-- An exported declaration, with the syntactic attributes the
classifier queries: a variable declaration with an optional
initializer, a function declaration with its parameter list (each
parameter's resolved type handle), a class declaration, or anything
else. -/
inductive Decl where
  | variableDecl (initializer : Option Initializer)
  | functionDecl (params : List Nat)
  | classDecl
  | otherDecl
deriving Repr

/-- Source function `resolveImportSource(node)`: the module specifier of the import
that introduced the callee identifier, or `null` when the symbol /
declaration / ancestor-import chain fails (collapsed into the
`calleeImport` attribute of the facade's call-expression view). -/
def resolveImportSource (i : Initializer) : Option String :=
  match i with
  | .callExpr _ imp _ => imp
  | _ => none

/-- Source function `isForwardRef(declaration)`: a variable declaration whose
initializer is a call expression, whose callee's text ends with
"forwardRef", and whose callee's import source is exactly "react". -/
def isForwardRef (d : Decl) : Bool :=
  match d with
  | .variableDecl (some i) =>
    match i with
    | .callExpr calleeText _ _ =>
      jsEndsWith calleeText "forwardRef" && resolveImportSource i == some "react"
    | _ => false
  | _ => false

/-- Source function `isReactComponent(declaration)`: a class; or a function whose first
parameter's type is an object type; or a variable whose initializer is
an arrow function whose first parameter's type is an object type. -/
def isReactComponent (env : Env) (d : Decl) : Bool :=
  match d with
  | .classDecl => true
  | .functionDecl params =>
    match params with
    | [] => false
    | p :: _ => env.isObjectType p
  | .variableDecl (some (.arrowFun params)) =>
    match params with
    | [] => false
    | p :: _ => env.isObjectType p
  | _ => false

/-- Source function `extractPropsType(declaration)`: the type of the first parameter of
a function, or of the arrow function in a variable's initializer;
`null` when there is no first parameter.  (A variable whose initializer
is not an arrow function has no parameter list to take; this
configuration is unreachable through the analyzer, which only calls
this after `isReactComponent` succeeds.) -/
def extractPropsType (d : Decl) : Option Nat :=
  match d with
  | .functionDecl params => params.head?
  | .variableDecl (some (.arrowFun params)) => params.head?
  | _ => none

/-- Source function `extractForwardRefPropsType(declaration)`: for a variable whose
initializer is a call expression, the second type argument when the
call has at least two (`typeArguments.length >= 2 ? typeArguments[1] :
null`); otherwise `null`. -/
def extractForwardRefPropsType (d : Decl) : Option Nat :=
  match d with
  | .variableDecl (some (.callExpr _ _ typeArgs)) =>
    if typeArgs.length ≥ 2 then typeArgs.get? 1 else none
  | _ => none

/-- The spec's `Classification` sum type (§3/§4.1), computed with the
dispatch order of the analyzer's declaration loop: the forwardRef check
first, then the direct-component check, otherwise not a component. -/
inductive Classification where
  | NotAComponent
  | DirectComponent
  | ForwardRefComponent
deriving DecidableEq, Repr

/-- Function `classify(declaration)` per spec §4.1, over the code's predicates
in the code's dispatch order. -/
def classify (env : Env) (d : Decl) : Classification :=
  if isForwardRef d then .ForwardRefComponent
  else if isReactComponent env d then .DirectComponent
  else .NotAComponent

/-- Insertion into the JS `result` object: `result[name] = v` keeps an
existing key's position and overwrites its value, otherwise appends. -/
def updateAssoc (m : List (String × JSVal)) (k : String) (v : JSVal) :
    List (String × JSVal) :=
  match m with
  | [] => [(k, v)]
  | (k', v') :: rest =>
    if k' == k then (k, v) :: rest else (k', v') :: updateAssoc rest k v

/-- State threaded through the analyzer's declaration loop: the
`result` mapping, the `skippedCount`, and the per-name `processed`
flag (declared once per exported name, shared by all declarations of
that name). -/
structure LoopState where
  result : List (String × JSVal)
  skippedCount : Nat
  processed : Bool
deriving Repr

/-- The body of `declarations.forEach` in `analyzeComponentProps`:
the `try` block runs the forwardRef branch, then (if not processed)
the direct-component branch, then increments `skippedCount` if still
not processed; the `catch` block — reached exactly when
`resolveTypeRecursively` propagates an exception (its root
`type.getText()` call is outside its own `try`) — increments
`skippedCount` and moves on. -/
def processDeclaration (env : Env) (maxDepth : Nat) (name : String)
    (st : LoopState) (d : Decl) : LoopState :=
  let afterForward : Option LoopState :=
    if isForwardRef d then
      match extractForwardRefPropsType d with
      | some pt =>
        match resolveTypeRecursively env pt maxDepth with
        | (.ok v, _) =>
          some { st with result := updateAssoc st.result name v, processed := true }
        | (.error _, _) => none
      | none => some st
    else some st
  match afterForward with
  | none => { st with skippedCount := st.skippedCount + 1 }
  | some st1 =>
    let afterDirect : Option LoopState :=
      if !st1.processed && isReactComponent env d then
        match extractPropsType d with
        | some pt =>
          match resolveTypeRecursively env pt maxDepth with
          | (.ok v, _) =>
            some { st1 with result := updateAssoc st1.result name v, processed := true }
          | (.error _, _) => none
        | none => some st1
      else some st1
    match afterDirect with
    | none => { st1 with skippedCount := st1.skippedCount + 1 }
    | some st2 =>
      if st2.processed then st2
      else { st2 with skippedCount := st2.skippedCount + 1 }

/-- Source function `analyzeComponentProps(filePath, maxDepth = 2)`: the source file's
exported declarations (name → declaration list, in export order) are
processed in order; the returned pair is the `result` mapping and the
`skippedCount`. -/
def analyzeComponentProps (env : Env)
    (components : List (String × List Decl)) (maxDepth : Nat := 2) :
    List (String × JSVal) × Nat :=
  components.foldl
    (fun acc comp =>
      let fin := comp.2.foldl (processDeclaration env maxDepth comp.1)
        { result := acc.1, skippedCount := acc.2, processed := false }
      (fin.result, fin.skippedCount))
    ([], 0)

mutual

/-- Height of a resolved JS value tree: strings are leaves of height 0,
arrays and objects add one level above their children. -/
def JSVal.height : JSVal → Nat
  | .str _ => 0
  | .arr xs => JSVal.heightList xs + 1
  | .obj fs => JSVal.heightFields fs + 1

/-- Maximum height of a list of values. -/
def JSVal.heightList : List JSVal → Nat
  | [] => 0
  | v :: vs => max v.height (JSVal.heightList vs)

/-- Maximum height of the values of a field list. -/
def JSVal.heightFields : List (String × JSVal) → Nat
  | [] => 0
  | (_, v) :: fs => max v.height (JSVal.heightFields fs)

end

/-! ## Concrete environments used as witnesses and counterexamples -/

/-- A self-referential object type `T = \x7b next: T \x7d` (node 0). -/
def envSelfRef : Env where
  text := fun n => match n with
    | 0 => .ok "T"
    | _ => .ok "?"
  defn := fun n => match n with
    | 0 => .object [("next", .ok 0)]
    | _ => .prim

/-- An object type `O` (node 0) with two sibling properties `a` and `b`
whose types (nodes 1 and 2, both primitive) render to the same textual
key "P". -/
def envSiblings : Env where
  text := fun n => match n with
    | 0 => .ok "O"
    | 1 => .ok "P"
    | 2 => .ok "P"
    | _ => .ok "?"
  defn := fun n => match n with
    | 0 => .object [("a", .ok 1), ("b", .ok 2)]
    | _ => .prim

/-- The `Card` source file of the spec's end-to-end property:
node 0 is the props type `\x7b title: string; tags: string[]; \x7d`,
node 1 is `string`, node 2 is `string[]`. -/
def envCard : Env where
  text := fun n => match n with
    | 0 => .ok "\x7b title: string; tags: string[]; \x7d"
    | 1 => .ok "string"
    | 2 => .ok "string[]"
    | _ => .ok "?"
  defn := fun n => match n with
    | 0 => .object [("title", .ok 1), ("tags", .ok 2)]
    | 2 => .array (.ok 1)
    | _ => .prim

/-- The `Card` file's exported declarations: a single function
declaration whose first parameter has the props type (node 0). -/
def cardComponents : List (String × List Decl) := [("Card", [.functionDecl [0]])]

/-- An object type `O` (node 0) whose property `a` has type `string`
(node 1) and whose property `b`'s `getType()` query throws "boom". -/
def envPropThrow : Env where
  text := fun n => match n with
    | 0 => .ok "O"
    | 1 => .ok "string"
    | _ => .ok "?"
  defn := fun n => match n with
    | 0 => .object [("a", .ok 1), ("b", .error "boom")]
    | _ => .prim

/-- An array type `A` (node 0) whose element type is the object type
`B = \x7b x: string \x7d` (node 1, with node 2 = `string`). -/
def envArrObj : Env where
  text := fun n => match n with
    | 0 => .ok "A"
    | 1 => .ok "B"
    | 2 => .ok "string"
    | _ => .ok "?"
  defn := fun n => match n with
    | 0 => .array (.ok 1)
    | 1 => .object [("x", .ok 2)]
    | _ => .prim

/-- Two prop types: node 0 is an object type whose `getText()` throws
"boom"; node 1 is an empty object type `E`. -/
def envTwoDecls : Env where
  text := fun n => match n with
    | 0 => .error "boom"
    | 1 => .ok "E"
    | _ => .ok "?"
  defn := fun n => match n with
    | 0 => .object [("x", .ok 1)]
    | 1 => .object []
    | _ => .prim

-- scratch checks
example :
    resolveTypeRecursively envSelfRef 0 3 =
    (.ok (.obj [("next", .str "Circular reference")]), ["T"]) := rfl

example : jsEndsWith "React.forwardRef" "forwardRef" = true := by decide
example : jsEndsWith "createRef" "forwardRef" = false := by decide

-- the Card end-to-end scratch evaluation
example :
    analyzeComponentProps envCard cardComponents 2 =
    ([("Card", .obj [("title", .str "string"),
        ("tags", .arr [.str "Array of: Circular reference"])])], 0) := rfl

/-! ## Theorems for the claims -/

/-- C5: for every type occurrence reached at depth strictly greater
than `maxDepth`, `resolveTypeRecursively` returns exactly the
"Reached max depth" marker — not an error, not a leaf, not an expanded
structure — before the cycle check is consulted (the `visited`
argument is arbitrary, so the result is the same even when the type's
key is already on the resolution path), and the `visited` set is
returned unchanged (the key is not added). -/
theorem resolve_depth_cutoff (env : Env) (t maxDepth currentDepth : Nat)
    (visited : List String) (h : maxDepth < currentDepth) :
    resolveTypeRecursively env t maxDepth currentDepth visited =
      (.ok (.str "Reached max depth"), visited) := by
  unfold resolveTypeRecursively
  rw [show maxDepth + 1 - currentDepth = 0 by omega]
  rfl

/-- C5 witness: a concrete call at depth 2 with budget 1, with the
type's key already on the path, returns the max-depth marker and
leaves the path untouched. -/
theorem resolve_depth_cutoff_witness :
    resolveTypeRecursively envSelfRef 0 1 2 ["T"] =
      (.ok (.str "Reached max depth"), ["T"]) :=
  resolve_depth_cutoff envSelfRef 0 1 2 ["T"] (by decide)

/-- C3: resolving a self-referential object type `T = \x7b next: T \x7d`
with any `maxDepth ≥ 1` (starting depth 0, empty path) expands the root
to its properties and reports the recursive occurrence as a circular
reference — not as a max-depth cutoff and not as an error. -/
theorem resolve_selfRef (env : Env) (t : Nat) (k : String) (maxDepth : Nat)
    (ht : env.text t = .ok k) (hd : env.defn t = .object [("next", .ok t)])
    (hm : 1 ≤ maxDepth) :
    resolveTypeRecursively env t maxDepth =
      (.ok (.obj [("next", .str "Circular reference")]), [k]) := by
  unfold resolveTypeRecursively
  rw [show maxDepth + 1 - 0 = (maxDepth - 1) + 2 by omega]
  simp [resolveFuel, resolveProperties, ht, hd]

/-- C3 witness: the concrete self-referential environment at
`maxDepth = 1`. -/
theorem resolve_selfRef_witness :
    resolveTypeRecursively envSelfRef 0 1 =
      (.ok (.obj [("next", .str "Circular reference")]), ["T"]) :=
  resolve_selfRef envSelfRef 0 "T" 1 rfl rfl (by decide)

/-- C1 counterexample: in `envSiblings`, properties `a` and `b` are
siblings whose (distinct, primitive) types both render to the key "P",
which is not an ancestor key, and the depth budget (2) is ample; the
claim predicts both siblings resolve to the full shape `"P"`, but the
code's shared `visited` set makes the second sibling come back as
"Circular reference". -/
theorem sibling_false_circular_cex :
    resolveTypeRecursively envSiblings 0 2 =
      (.ok (.obj [("a", .str "P"), ("b", .str "Circular reference")]), ["P", "O"]) ∧
    JSVal.obj [("a", .str "P"), ("b", .str "Circular reference")] ≠
      JSVal.obj [("a", .str "P"), ("b", .str "P")] :=
  ⟨rfl, by simp⟩

/-- C1 amended: cycle detection is *not* path-scoped — the `visited`
set is a single set shared (mutated in place) across the whole
traversal.  For an object type with two sibling properties whose
(primitive) types render to the same key, the key being neither the
parent's key nor previously visited, and the depth budget not
exhausted, the first sibling resolves to its full shape while the
second is reported as a circular reference merely because the first
added the shared key. -/
theorem sibling_shared_visited (env : Env) (t u₁ u₂ : Nat)
    (k p n₁ n₂ : String) (maxDepth currentDepth : Nat) (visited : List String)
    (hdep : currentDepth + 1 ≤ maxDepth)
    (ht : env.text t = .ok k) (hk : k ∉ visited)
    (hd : env.defn t = .object [(n₁, .ok u₁), (n₂, .ok u₂)])
    (ht₁ : env.text u₁ = .ok p) (ht₂ : env.text u₂ = .ok p)
    (hd₁ : env.defn u₁ = .prim)
    (hpk : p ≠ k) (hp : p ∉ visited) :
    resolveTypeRecursively env t maxDepth currentDepth visited =
      (.ok (.obj [(n₁, .str p), (n₂, .str "Circular reference")]), p :: k :: visited) := by
  unfold resolveTypeRecursively
  rw [show maxDepth + 1 - currentDepth = (maxDepth - currentDepth - 1) + 2 by omega]
  simp [resolveFuel, resolveProperties, ht, hd, ht₁, ht₂, hd₁, hk, hp, hpk]

/-- C1 witness for the amended claim: the sibling environment at
`maxDepth = 3` with a non-empty starting path. -/
theorem sibling_shared_visited_witness :
    resolveTypeRecursively envSiblings 0 3 0 ["seed"] =
      (.ok (.obj [("a", .str "P"), ("b", .str "Circular reference")]),
        ["P", "O", "seed"]) :=
  sibling_shared_visited envSiblings 0 1 2 "O" "P" "a" "b" 3 0 ["seed"]
    (by decide) rfl (by simp) rfl rfl rfl rfl (by decide) (by simp)

/-- C4 counterexample: in `envArrObj` the array type `A` has the object
element type `B = \x7b x: string \x7d`; resolving `B` one level deeper
gives the structural shape `\x7b x: "string" \x7d`, but the code's array
branch embeds the *stringification* of that shape into a template
literal, producing `["Array of: [object Object]"]` rather than the
claim's `ArrayOf` of the element's resolved shape. -/
theorem arrayOf_stringified_cex :
    resolveTypeRecursively envArrObj 0 2 =
      (.ok (.arr [.str "Array of: [object Object]"]), ["string", "B", "A"]) ∧
    resolveTypeRecursively envArrObj 1 2 1 ["A"] =
      (.ok (.obj [("x", .str "string")]), ["string", "B", "A"]) ∧
    JSVal.arr [.str "Array of: [object Object]"] ≠
      JSVal.arr [.obj [("x", .str "string")]] :=
  ⟨rfl, rfl, by simp⟩

/-- C4 amended: for an array type (within the depth budget, key not on
the current path) the result is the singleton JS array holding the
string "Array of: " followed by the JS stringification of
`resolve(elementType, maxDepth, depth+1, visited-with-key-added)`; the
element is resolved one level deeper with the key pushed onto the
shared path, but its structural decomposition survives only as a
string (objects flatten to "[object Object]"). -/
theorem resolve_array_stringifies (env : Env) (t u : Nat) (k : String)
    (maxDepth currentDepth : Nat) (visited : List String)
    (v : JSVal) (vis' : List String)
    (hdep : currentDepth ≤ maxDepth)
    (ht : env.text t = .ok k) (hk : k ∉ visited)
    (hd : env.defn t = .array (.ok u))
    (hrec : resolveTypeRecursively env u maxDepth (currentDepth + 1) (k :: visited) =
      (.ok v, vis')) :
    resolveTypeRecursively env t maxDepth currentDepth visited =
      (.ok (.arr [.str ("Array of: " ++ jsToString v)]), vis') := by
  unfold resolveTypeRecursively at hrec ⊢
  rw [show maxDepth + 1 - currentDepth = (maxDepth - currentDepth) + 1 by omega]
  rw [show maxDepth + 1 - (currentDepth + 1) = maxDepth - currentDepth by omega] at hrec
  simp [resolveFuel, ht, hd, hk, hrec]

/-- C4 witness for the amended claim: the concrete array-of-object
environment; the element's resolved shape is stringified to
"[object Object]" inside the singleton array. -/
theorem resolve_array_stringifies_witness :
    resolveTypeRecursively envArrObj 0 3 0 ["seed"] =
      (.ok (.arr [.str ("Array of: " ++ jsToString (.obj [("x", .str "string")]))]),
        ["string", "B", "A", "seed"]) :=
  resolve_array_stringifies envArrObj 0 1 "A" 3 0 ["seed"]
    (.obj [("x", .str "string")]) ["string", "B", "A", "seed"]
    (by decide) rfl (by simp) rfl rfl

/-- C6 counterexample: in `envPropThrow` the facade throws "boom" while
querying property `b`'s type.  The claim predicts the object still
resolves with sibling `a` intact and only `b` marked as an error, but
the exception is caught by the `catch` of the call resolving the
*enclosing object*, so the whole object's result is the bare error
string — the successfully resolved sibling (second conjunct) is
discarded. -/
theorem prop_throw_not_localized_cex :
    resolveTypeRecursively envPropThrow 0 2 =
      (.ok (.str "Error resolving type \"O\": boom"), ["string", "O"]) ∧
    resolveTypeRecursively envPropThrow 1 2 1 ["O"] =
      (.ok (.str "string"), ["string", "O"]) ∧
    JSVal.str "Error resolving type \"O\": boom" ≠
      JSVal.obj [("a", .str "string"), ("b", .str "boom")] :=
  ⟨rfl, rfl, by simp⟩

/-- C6 amended: a facade throw while querying a property's type is
caught at the level of the object whose property list is being
resolved: that object's *entire* result becomes the `errMsg` string
(already-resolved siblings are discarded), while the exception does not
escape the call — the enclosing declaration still receives an `ok`
result.  (Only a throw occurring strictly inside a property's own
recursive resolution is localized to that property's subtree, by the
child's own catch.) -/
theorem resolve_propThrow_collapses (env : Env) (t u₁ : Nat)
    (n₁ n₂ k e : String) (maxDepth currentDepth : Nat) (visited : List String)
    (v₁ : JSVal) (vis₁ : List String)
    (hdep : currentDepth ≤ maxDepth)
    (ht : env.text t = .ok k) (hk : k ∉ visited)
    (hd : env.defn t = .object [(n₁, .ok u₁), (n₂, .error e)])
    (hrec : resolveTypeRecursively env u₁ maxDepth (currentDepth + 1) (k :: visited) =
      (.ok v₁, vis₁)) :
    resolveTypeRecursively env t maxDepth currentDepth visited =
      (.ok (.str (errMsg k e)), vis₁) := by
  unfold resolveTypeRecursively at hrec ⊢
  rw [show maxDepth + 1 - currentDepth = (maxDepth - currentDepth) + 1 by omega]
  rw [show maxDepth + 1 - (currentDepth + 1) = maxDepth - currentDepth by omega] at hrec
  simp [resolveFuel, resolveProperties, ht, hd, hk, hrec]

/-- C6 witness for the amended claim: the concrete property-throw
environment; sibling `a` resolves to `"string"` on the way, yet the
whole object collapses to the error string. -/
theorem resolve_propThrow_collapses_witness :
    resolveTypeRecursively envPropThrow 0 3 0 ["seed"] =
      (.ok (.str (errMsg "O" "boom")), ["string", "O", "seed"]) :=
  resolve_propThrow_collapses envPropThrow 0 1 "a" "b" "O" "boom" 3 0 ["seed"]
    (.str "string") ["string", "O", "seed"]
    (by decide) rfl (by simp) rfl rfl

/-- C2 counterexample: for the `Card` file (`function Card(props:
\x7b title: string; tags: string[] \x7d)`) at `maxDepth = 2`, the claim
predicts `\x7b Card: \x7b title: "string", tags: ["string"] \x7d \x7d`;
the code instead returns the `tags` array as
`["Array of: Circular reference"]`: resolving `title` put the key
"string" into the shared `visited` set, so the array's element type is
reported circular, and the array branch prepends "Array of: " to the
stringified element. -/
theorem card_end_to_end_cex :
    analyzeComponentProps envCard cardComponents 2 =
      ([("Card", .obj [("title", .str "string"),
          ("tags", .arr [.str "Array of: Circular reference"])])], 0) ∧
    ([("Card", JSVal.obj [("title", .str "string"),
        ("tags", .arr [.str "Array of: Circular reference"])])], 0) ≠
      ([("Card", JSVal.obj [("title", .str "string"),
          ("tags", .arr [.str "string"])])], (0 : Nat)) :=
  ⟨rfl, by simp⟩

/-- C2 amended: analyzing the `Card` file with `maxDepth = 2` yields
the mapping
`\x7b Card: \x7b title: "string", tags: ["Array of: Circular reference"] \x7d \x7d`
and a skipped-count of 0: the declaration is classified and resolved
(nothing is skipped), `title` resolves to the leaf "string", but the
`tags` element is reported circular through the shared `visited` set
and stringified by the array branch's template literal. -/
theorem card_end_to_end :
    analyzeComponentProps envCard cardComponents 2 =
      ([("Card", .obj [("title", .str "string"),
          ("tags", .arr [.str "Array of: Circular reference"])])], 0) := rfl

/-- C7: for a variable declaration initialized by a call whose callee's
text ends with "forwardRef": it classifies as `ForwardRefComponent` if
and only if the callee's import resolves to "react"; with any other
source of import it classifies as `NotAComponent`; and when the import is
"react" and the call has two type arguments, the second one is
extracted as the props type. -/
theorem forwardRef_provenance (env : Env) (calleeText : String)
    (imp : Option String) (typeArgs : List Nat) (a b : Nat)
    (hew : jsEndsWith calleeText "forwardRef" = true) :
    (classify env (.variableDecl (some (.callExpr calleeText imp typeArgs))) =
        .ForwardRefComponent ↔ imp = some "react")
    ∧ (imp ≠ some "react" →
        classify env (.variableDecl (some (.callExpr calleeText imp typeArgs))) =
          .NotAComponent)
    ∧ extractForwardRefPropsType
        (.variableDecl (some (.callExpr calleeText (some "react") [a, b]))) = some b := by
  refine ⟨?_, ?_, ?_⟩
  · by_cases h : imp = some "react" <;>
      simp [classify, isForwardRef, isReactComponent, resolveImportSource, hew, h]
  · intro h
    simp [classify, isForwardRef, isReactComponent, resolveImportSource, hew, h]
  · simp [extractForwardRefPropsType]

/-- C7 witness: a namespace-qualified callee "React.forwardRef" that
comes from the module "other" is not a forwardRef component (it classifies as
`NotAComponent`), while the "react"-imported call with two type
arguments extracts the second one. -/
theorem forwardRef_provenance_witness :
    (classify envCard
        (.variableDecl (some (.callExpr "React.forwardRef" (some "other") []))) =
        .ForwardRefComponent ↔ some "other" = some "react")
    ∧ (some "other" ≠ some "react" →
        classify envCard
          (.variableDecl (some (.callExpr "React.forwardRef" (some "other") []))) =
          .NotAComponent)
    ∧ extractForwardRefPropsType
        (.variableDecl (some (.callExpr "React.forwardRef" (some "react") [5, 9]))) =
        some 9 :=
  forwardRef_provenance envCard "React.forwardRef" (some "other") [] 5 9 (by decide)

/-- C8: a declaration classified as `ForwardRefComponent` whose
wrapping call has fewer than two type arguments yields `none` from
props extraction, and the aggregator counts it as skipped: it is not
recorded in the result mapping, not treated as an error, and not
re-processed as a direct component. -/
theorem forwardRef_fewTypeArgs_skipped (env : Env) (name calleeText : String)
    (typeArgs : List Nat) (maxDepth : Nat)
    (hew : jsEndsWith calleeText "forwardRef" = true)
    (hlen : typeArgs.length < 2) :
    classify env (.variableDecl (some (.callExpr calleeText (some "react") typeArgs))) =
      .ForwardRefComponent
    ∧ extractForwardRefPropsType
        (.variableDecl (some (.callExpr calleeText (some "react") typeArgs))) = none
    ∧ analyzeComponentProps env
        [(name, [.variableDecl (some (.callExpr calleeText (some "react") typeArgs))])]
        maxDepth = ([], 1) := by
  refine ⟨?_, ?_, ?_⟩
  · simp [classify, isForwardRef, resolveImportSource, hew]
  · simp [extractForwardRefPropsType, Nat.not_le.mpr hlen]
  · simp [analyzeComponentProps, processDeclaration, isForwardRef, isReactComponent,
      resolveImportSource, extractForwardRefPropsType, hew, Nat.not_le.mpr hlen]

/-- C8 witness: a "react"-imported forwardRef call with a single type
argument is classified as a forwardRef component, extraction yields
`none`, and the file report is empty with one skipped declaration. -/
theorem forwardRef_fewTypeArgs_skipped_witness :
    classify envCard (.variableDecl (some (.callExpr "forwardRef" (some "react") [3]))) =
      .ForwardRefComponent
    ∧ extractForwardRefPropsType
        (.variableDecl (some (.callExpr "forwardRef" (some "react") [3]))) = none
    ∧ analyzeComponentProps envCard
        [("Button", [.variableDecl (some (.callExpr "forwardRef" (some "react") [3]))])]
        2 = ([], 1) :=
  forwardRef_fewTypeArgs_skipped envCard "Button" "forwardRef" [3] 2
    (by decide) (by decide)

/-- C9: if processing one exported declaration throws (here: the props
type's `getText()` throws while `resolveTypeRecursively` is outside its
own `try` block, so the exception reaches the declaration loop's
`catch`), that declaration is counted in the skipped-count and the
remaining declarations of the file are still processed, so the file
report contains the results of every declaration processed without
exception. -/
theorem decl_throw_skipped (env : Env) (n₁ n₂ : String) (t₁ t₂ : Nat)
    (props₁ : List (String × Except String Nat)) (e k : String) (maxDepth : Nat)
    (hd₁ : env.defn t₁ = .object props₁) (ht₁ : env.text t₁ = .error e)
    (hd₂ : env.defn t₂ = .object []) (ht₂ : env.text t₂ = .ok k) :
    analyzeComponentProps env
      [(n₁, [.functionDecl [t₁]]), (n₂, [.functionDecl [t₂]])] maxDepth =
      ([(n₂, .obj [])], 1) := by
  simp [analyzeComponentProps, processDeclaration, isForwardRef, isReactComponent,
    Env.isObjectType, extractPropsType, resolveTypeRecursively, resolveFuel,
    resolveProperties, updateAssoc, hd₁, ht₁, hd₂, ht₂]

/-- C9 witness: in `envTwoDecls`, declaration `Broken`'s props type
throws on `getText()` and is skipped, while `Fine` still resolves. -/
theorem decl_throw_skipped_witness :
    analyzeComponentProps envTwoDecls
      [("Broken", [.functionDecl [0]]), ("Fine", [.functionDecl [1]])] 2 =
      ([("Fine", .obj [])], 1) :=
  decl_throw_skipped envTwoDecls "Broken" "Fine" 0 1 [("x", .ok 1)] "boom" "E" 2
    rfl rfl rfl rfl

/-- If every `ok` value produced by the child resolver has height at
most `f`, then every field list produced by `resolveProperties` with
that resolver has (maximum value) height at most `f`. -/
theorem resolveProperties_height
    (resolver : Nat → List String → Except String JSVal × List String) (f : Nat)
    (hres : ∀ t vis v vis', resolver t vis = (.ok v, vis') → JSVal.height v ≤ f) :
    ∀ (props : List (String × Except String Nat)) (vis : List String)
      (fields : List (String × JSVal)) (vis' : List String),
      resolveProperties resolver props vis = (.ok fields, vis') →
      JSVal.heightFields fields ≤ f := by
  intro props
  induction props with
  | nil =>
    intro vis fields vis' h
    simp only [resolveProperties, Prod.mk.injEq, Except.ok.injEq] at h
    obtain ⟨rfl, -⟩ := h
    simp [JSVal.heightFields]
  | cons hd tl ih =>
    intro vis fields vis' h
    obtain ⟨name, ptq⟩ := hd
    cases ptq with
    | error e => simp [resolveProperties] at h
    | ok pt =>
      rcases hre : resolver pt vis with ⟨r, v⟩
      cases r with
      | error e => simp [resolveProperties, hre] at h
      | ok val =>
        rcases hrest : resolveProperties resolver tl v with ⟨r2, v2⟩
        cases r2 with
        | error e => simp [resolveProperties, hre, hrest] at h
        | ok fields2 =>
          simp only [resolveProperties, hre, hrest, Prod.mk.injEq,
            Except.ok.injEq] at h
          obtain ⟨rfl, rfl⟩ := h
          simp only [JSVal.heightFields, sup_le_iff]
          exact ⟨hres pt vis val v hre, ih v fields2 v2 hrest⟩

/-- Every `ok` value produced by `resolveFuel` with budget `fuel` has
height at most `fuel`. -/
theorem resolveFuel_height (env : Env) :
    ∀ (fuel t : Nat) (vis : List String) (v : JSVal) (vis' : List String),
      resolveFuel env fuel t vis = (.ok v, vis') → JSVal.height v ≤ fuel := by
  intro fuel
  induction fuel with
  | zero =>
    intro t vis v vis' h
    simp only [resolveFuel, Prod.mk.injEq, Except.ok.injEq] at h
    obtain ⟨rfl, -⟩ := h
    simp [JSVal.height]
  | succ f ih =>
    intro t vis v vis' h
    cases htx : env.text t with
    | error e => simp [resolveFuel, htx] at h
    | ok typeName =>
      by_cases hmem : typeName ∈ vis
      · simp only [resolveFuel, htx, hmem, if_true, Prod.mk.injEq,
          Except.ok.injEq] at h
        obtain ⟨rfl, -⟩ := h
        simp [JSVal.height]
      · cases hdf : env.defn t with
        | array elemq =>
          cases elemq with
          | error e =>
            simp only [resolveFuel, htx, hmem, if_false, hdf, Prod.mk.injEq,
              Except.ok.injEq] at h
            obtain ⟨rfl, -⟩ := h
            simp [JSVal.height]
          | ok elem =>
            rcases hre : resolveFuel env f elem (typeName :: vis) with ⟨r, v1⟩
            cases r with
            | error e =>
              simp only [resolveFuel, htx, hmem, if_false, hdf, hre,
                Prod.mk.injEq, Except.ok.injEq] at h
              obtain ⟨rfl, -⟩ := h
              simp [JSVal.height]
            | ok val =>
              simp only [resolveFuel, htx, hmem, if_false, hdf, hre,
                Prod.mk.injEq, Except.ok.injEq] at h
              obtain ⟨rfl, -⟩ := h
              simp [JSVal.height, JSVal.heightList]
        | object props =>
          rcases hrp : resolveProperties (resolveFuel env f) props (typeName :: vis)
            with ⟨r, v1⟩
          cases r with
          | error e =>
            simp only [resolveFuel, htx, hmem, if_false, hdf, hrp,
              Prod.mk.injEq, Except.ok.injEq] at h
            obtain ⟨rfl, -⟩ := h
            simp [JSVal.height]
          | ok fields =>
            simp only [resolveFuel, htx, hmem, if_false, hdf, hrp,
              Prod.mk.injEq, Except.ok.injEq] at h
            obtain ⟨rfl, -⟩ := h
            have := resolveProperties_height (resolveFuel env f) f
              (fun t vis v vis' hh => ih t vis v vis' hh)
              props (typeName :: vis) fields v1 hrp
            simp only [JSVal.height]
            omega
        | prim =>
          simp only [resolveFuel, htx, hmem, if_false, hdf, Prod.mk.injEq,
            Except.ok.injEq] at h
          obtain ⟨rfl, -⟩ := h
          simp [JSVal.height]

/-- C10: for every input type graph — self-referential or mutually
referential included, since `Env` places no restriction on `defn` —
and every finite `maxDepth`, `resolveTypeRecursively` terminates (it is
a total function, defined by structural recursion on the remaining
depth budget, exactly the source's argument that each recursive call
increases `currentDepth` toward the `maxDepth` bound) and its result is
a finite tree of height at most `maxDepth + 1 - currentDepth`. -/
theorem resolve_terminates_bounded (env : Env) (t maxDepth currentDepth : Nat)
    (visited : List String) (v : JSVal) (vis' : List String)
    (h : resolveTypeRecursively env t maxDepth currentDepth visited = (.ok v, vis')) :
    JSVal.height v ≤ maxDepth + 1 - currentDepth :=
  resolveFuel_height env (maxDepth + 1 - currentDepth) t visited v vis' h

/-- C10 witness: the `Card` props shape, produced at `maxDepth = 2`
from depth 0, has height at most 3. -/
theorem resolve_terminates_bounded_witness :
    JSVal.height (.obj [("title", .str "string"),
      ("tags", .arr [.str "Array of: Circular reference"])]) ≤ 2 + 1 - 0 :=
  resolve_terminates_bounded envCard 0 2 0 []
    (.obj [("title", .str "string"),
      ("tags", .arr [.str "Array of: Circular reference"])])
    ["string[]", "string", "\x7b title: string; tags: string[]; \x7d"] rfl
